import Mathlib

/-!
Verification of `explainable_matcher.py` (class `ExplainableImageMatcher`),
the explainable image/text matching pipeline of the `image_matcher`
repository.

The pretrained CLIP model (`model.encode_image` / `model.encode_text`
followed by L2 normalization) and the remote OpenAI chat call are external
collaborators.  They are abstracted as parameters: a normalized image
embedding `List ℚ`, a normalized text encoder `String → List ℚ`, a flag
`clientPresent` for whether an `OPENAI_API_KEY` credential is configured,
and an `Option (List Feature)` holding the successfully parsed LLM output
(`none` models every failure mode: network error, malformed JSON,
non-2xx response, timeout).  All arithmetic on embedding values is done
in exact rationals; Python's binary floating point is not modelled, and
Python's `round` (banker's rounding on floats) is modelled as
round-half-up on rationals — none of the properties proved below depend
on tie-breaking behaviour of rounding, since the same rounding function
appears on both sides of every equation.
-/

namespace ImageMatcher

/-- A decomposed prompt feature: the dict `{'feature': ..., 'category': ...}`
returned by `decompose_prompt` / `_fallback_decomposition`. -/
structure Feature where
  feature : String
  category : String
  deriving DecidableEq

/-- A feature after `compute_feature_similarities` has populated the
`'similarity'` and `'status'` keys. -/
structure ScoredFeature where
  feature : String
  category : String
  similarity : ℚ
  status : String
  deriving DecidableEq

/-- Dot product of two embedding vectors (`image_embedding @ text_embeddings.T`
for one row).  Both vectors are unit-normalized by the (abstracted) encoder,
so this is the cosine similarity. -/
def dotProd (a b : List ℚ) : ℚ :=
  (List.zipWith (fun x y => x * y) a b).sum

/-- Python `round(x, 2)` on the score (line 258 of the source).  Ties are
rounded half-up here; see the header comment. -/
def pyRound2 (q : ℚ) : ℚ :=
  ((⌊q * 100 + 1/2⌋ : ℤ) : ℚ) / 100

/-- Python `round(x, 3)` on breakdown similarities (line 262 of the source). -/
def pyRound3 (q : ℚ) : ℚ :=
  ((⌊q * 1000 + 1/2⌋ : ℤ) : ℚ) / 1000

/-- Python `f"{x:.2f}"` formatting of a rational: fixed two decimal places.
Ties are rounded half-up; see the header comment. -/
def fmt2 (q : ℚ) : String :=
  let c : ℤ := ⌊q * 100 + 1/2⌋
  let sign := if q < 0 then "-" else ""
  let n := c.natAbs
  let r := n % 100
  sign ++ toString (n / 100) ++ "." ++ (if r < 10 then "0" ++ toString r else toString r)

/-! ### The regex split of `_fallback_decomposition`

`re.split(r\x27,|\s+and\s+|\s+with\s+\x27, prompt)` (line 101).  The scan
tries, at each position, the alternatives in order: a comma, then
`\s+and\s+`, then `\s+with\s+`.  Since `\s+` can never consume a letter
there is no observable backtracking: each `\s+` consumes a maximal run of
whitespace.  The splitter below is implemented with a fuel argument (one
unit per character examined) so that it reduces by kernel evaluation; the
fuel supplied by `reSplit` always suffices because every step consumes at
least one character. -/

/-- Python `\s` (restricted to the ASCII whitespace actually relevant here). -/
def isWsChar (c : Char) : Bool := c.isWhitespace

/-- Length of the maximal leading whitespace run. -/
def takeWsCount : List Char → Nat
  | [] => 0
  | c :: r => if isWsChar c then takeWsCount r + 1 else 0

/-- Does `pre` occur at the head of `l`? -/
def startsWithChars : List Char → List Char → Bool
  | [], _ => true
  | _ :: _, [] => false
  | a :: as, b :: bs => a == b && startsWithChars as bs

/-- Try to match `\s+<word>\s+` at the head of `l`; on success return the
number of characters consumed. -/
def delimLen (word : List Char) (l : List Char) : Option Nat :=
  let n := takeWsCount l
  if n = 0 then none
  else
    let rest := l.drop n
    if startsWithChars word rest then
      let m := takeWsCount (rest.drop word.length)
      if m = 0 then none else some (n + word.length + m)
    else none

/-- One pass of the `re.split` scan.  `acc` holds the current chunk,
reversed.  The fuel-exhausted case never fires when called via `reSplit`. -/
def splitAux : Nat → List Char → List Char → List String
  | 0, l, acc => [String.mk (acc.reverse ++ l)]
  | _ + 1, [], acc => [String.mk acc.reverse]
  | fuel + 1, c :: rest, acc =>
    if c = ',' then
      String.mk acc.reverse :: splitAux fuel rest []
    else
      match delimLen ['a', 'n', 'd'] (c :: rest) with
      | some k => String.mk acc.reverse :: splitAux fuel ((c :: rest).drop k) []
      | none =>
        match delimLen ['w', 'i', 't', 'h'] (c :: rest) with
        | some k => String.mk acc.reverse :: splitAux fuel ((c :: rest).drop k) []
        | none => splitAux fuel rest (c :: acc)

/-- `chunks = re.split(r\x27,|\s+and\s+|\s+with\s+\x27, prompt)` (line 101). -/
def reSplit (prompt : String) : List String :=
  splitAux prompt.toList.length prompt.toList []

/-! ### Keyword categorization (lines 107-120) -/

/-- Substring containment of `needle`'s characters in `hay`'s, i.e. the
Python `word in chunk_lower` test. -/
def containsSub (hay needle : List Char) : Bool :=
  match hay with
  | [] => startsWithChars needle []
  | _ :: rest => startsWithChars needle hay || containsSub rest needle

/-- Python `word in chunk_lower` on strings. -/
def strContains (hay needle : String) : Bool :=
  containsSub hay.toList needle.toList

def styleWords : List String :=
  ["modern", "rustic", "minimalist", "contemporary", "traditional", "elegant"]

def materialWords : List String :=
  ["cabinet", "countertop", "backsplash", "wood", "marble", "granite", "stone"]

def lightingWords : List String :=
  ["light", "lighting", "pendant", "chandelier", "led"]

def layoutWords : List String :=
  ["island", "layout", "open concept", "shaped"]

def fixtureWords : List String :=
  ["appliance", "sink", "faucet", "oven", "refrigerator"]

/-- `chunk_lower = chunk.lower()` (line 107).  (Implemented over the char
list so that it reduces by kernel evaluation; `String.map` does not.) -/
def toLowerStr (s : String) : String := String.mk (s.toList.map Char.toLower)

/-- `any(word in chunk_lower for word in ws)`. -/
def anyKeyword (ws : List String) (chunk : String) : Bool :=
  ws.any fun w => strContains (toLowerStr chunk) w

/-- The `if/elif` keyword classification of a (stripped) chunk
(lines 109-120): first matching keyword set wins, in the order
style, material, lighting, layout, fixtures; default `general`. -/
def categorizeChunk (chunk : String) : String :=
  if anyKeyword styleWords chunk then "style"
  else if anyKeyword materialWords chunk then "material"
  else if anyKeyword lightingWords chunk then "lighting"
  else if anyKeyword layoutWords chunk then "layout"
  else if anyKeyword fixtureWords chunk then "fixtures"
  else "general"

/-- Python `str.strip()`: remove leading and trailing whitespace.
(Implemented over the char list so that it reduces by kernel evaluation;
`String.trim` does not.) -/
def pyStrip (s : String) : String :=
  String.mk ((((s.toList.dropWhile isWsChar).reverse).dropWhile isWsChar).reverse)

/-- `_fallback_decomposition` (lines 91-128): split on the delimiters, strip
each chunk, keep chunks longer than 5 characters, categorize by keywords. -/
def fallback_decomposition (prompt : String) : List Feature :=
  (reSplit prompt).filterMap fun chunk =>
    let c := pyStrip chunk
    if 5 < c.length then some ⟨c, categorizeChunk c⟩ else none

/-- `decompose_prompt` (lines 32-89).  `clientPresent` is whether
`OPENAI_API_KEY` was configured (line 37: `if not self.client`); `llmResult`
is `some fs` when the chat call succeeded and its JSON payload parsed to
`fs`, and `none` for every failure caught by the `except` on line 87. -/
def decompose_prompt (clientPresent : Bool) (llmResult : Option (List Feature))
    (prompt : String) : List Feature :=
  if !clientPresent then fallback_decomposition prompt
  else
    match llmResult with
    | some fs => fs
    | none => fallback_decomposition prompt

/-! ### Feature scorer (`compute_feature_similarities`, lines 130-159)

`encodeText` abstracts `model.encode_text` followed by unit normalization
(lines 143-144); batching all phrases into one call is observationally the
same as encoding each phrase separately, so the encoder is a per-phrase
function. -/

/-- `compute_feature_similarities` (lines 130-159): for each feature, the
dot product of the image embedding with the feature phrase's normalized
text embedding, then the threshold classification with
`STRONG_THRESHOLD = 0.45`, `PARTIAL_THRESHOLD = 0.25` (lines 29-30, 152-157). -/
def compute_feature_similarities (encodeText : String → List ℚ)
    (image_embedding : List ℚ) (features : List Feature) : List ScoredFeature :=
  if features = [] then []
  else
    features.map fun f =>
      let sim := dotProd image_embedding (encodeText f.feature)
      ⟨f.feature, f.category, sim,
        if (0.45 : ℚ) ≤ sim then "strong"
        else if (0.25 : ℚ) ≤ sim then "partial"
        else "weak"⟩

/-! ### Narrator (`generate_explanation`, lines 161-223)

The Python code appends strings to `explanation_parts` and joins them; the
embedding builds the same list of parts.  `sorted(..., key=..., reverse=True)`
is a stable sort; it is modelled by `List.insertionSort`, which is likewise
stable. -/

/-- `strong = [f for f in features if f['status'] == 'strong']` (line 166). -/
def strongOf (features : List ScoredFeature) : List ScoredFeature :=
  features.filter fun f => f.status == "strong"

/-- Line 167. -/
def partialOf (features : List ScoredFeature) : List ScoredFeature :=
  features.filter fun f => f.status == "partial"

/-- Line 168. -/
def weakOf (features : List ScoredFeature) : List ScoredFeature :=
  features.filter fun f => f.status == "weak"

/-- Descending order on `similarity` (`key=lambda x: x[\x27similarity\x27],
reverse=True`). -/
def simDescRel (a b : ScoredFeature) : Prop := b.similarity ≤ a.similarity

/-- Ascending order on `similarity` (`key=lambda x: x[\x27similarity\x27]`). -/
def simAscRel (a b : ScoredFeature) : Prop := a.similarity ≤ b.similarity

instance : DecidableRel simDescRel :=
  fun a b => inferInstanceAs (Decidable (b.similarity ≤ a.similarity))

instance : DecidableRel simAscRel :=
  fun a b => inferInstanceAs (Decidable (a.similarity ≤ b.similarity))

instance : IsTotal ScoredFeature simDescRel :=
  ⟨fun a b => le_total b.similarity a.similarity⟩

instance : IsTotal ScoredFeature simAscRel :=
  ⟨fun a b => le_total a.similarity b.similarity⟩

instance : IsTrans ScoredFeature simDescRel :=
  ⟨fun _ _ _ h1 h2 => le_trans h2 h1⟩

instance : IsTrans ScoredFeature simAscRel :=
  ⟨fun _ _ _ h1 h2 => le_trans h1 h2⟩

/-- `sorted(strong, ..., reverse=True)[:3]` (line 186). -/
def strongTop3 (features : List ScoredFeature) : List ScoredFeature :=
  (List.insertionSort simDescRel (strongOf features)).take 3

/-- `sorted(partial, ..., reverse=True)[:3]` (line 195). -/
def partialTop3 (features : List ScoredFeature) : List ScoredFeature :=
  (List.insertionSort simDescRel (partialOf features)).take 3

/-- `sorted(weak, key=lambda x: x[\x27similarity\x27])[:3]` (line 204):
ascending, worst first. -/
def weakTop3 (features : List ScoredFeature) : List ScoredFeature :=
  (List.insertionSort simAscRel (weakOf features)).take 3

/-- Lines 187-190. -/
def strongLine (f : ScoredFeature) : String :=
  "  • \x27" ++ f.feature ++ "\x27 is clearly present (feature similarity: "
    ++ fmt2 f.similarity ++ ")"

/-- Lines 196-199. -/
def partialLine (f : ScoredFeature) : String :=
  "  • \x27" ++ f.feature ++ "\x27 is partially visible (feature similarity: "
    ++ fmt2 f.similarity ++ ")"

/-- Lines 205-208. -/
def weakLine (f : ScoredFeature) : String :=
  "  • \x27" ++ f.feature ++ "\x27 is not clearly visible (feature similarity: "
    ++ fmt2 f.similarity ++ ")"

/-- The two header parts (lines 172-181): score with label, then one fixed
sentence per tier. -/
def scoreHeaderBlock (s : ℚ) : List String :=
  if (45 : ℚ) ≤ s then
    ["Overall Match Score: " ++ fmt2 s ++ "% (Strong Match)",
     "\nThis high score indicates the image aligns well with the prompt."]
  else if (25 : ℚ) ≤ s then
    ["Overall Match Score: " ++ fmt2 s ++ "% (Moderate Match)",
     "\nThis moderate score suggests some alignment with mixed results."]
  else
    ["Overall Match Score: " ++ fmt2 s ++ "% (Weak Match)",
     "\nThis low score indicates significant misalignment with the prompt."]

/-- The four summary parts (lines 211-214). -/
def summaryBlock (features : List ScoredFeature) : List String :=
  ["\n\nSummary: Out of " ++ toString features.length ++ " identified features, ",
   toString (strongOf features).length ++ " are strong matches, ",
   toString (partialOf features).length ++ " are partial matches, and ",
   toString (weakOf features).length ++ " are weak/missing."]

/-- The closing sentence (lines 216-221), keyed to the same tiers as the
header. -/
def closingStr (s : ℚ) : String :=
  if (45 : ℚ) ≤ s then " This explains the high overall match score."
  else if (25 : ℚ) ≤ s then " The mixed results explain the moderate overall score."
  else " The lack of strong matches explains the low overall score."

/-- The full `explanation_parts` list built by `generate_explanation`
(lines 161-223): header block, one optional section per non-empty tier
(section title plus up to three rendered items), summary block, closing
sentence. -/
def explanation_parts (features : List ScoredFeature) (original_score : ℚ) :
    List String :=
  scoreHeaderBlock original_score
    ++ (if strongOf features = [] then []
        else "\n\n✓ Strong Matches (Contributing to the score):"
          :: (strongTop3 features).map strongLine)
    ++ (if partialOf features = [] then []
        else "\n\n◐ Partial Matches (Somewhat contributing):"
          :: (partialTop3 features).map partialLine)
    ++ (if weakOf features = [] then []
        else "\n\n✗ Weak/Missing Features (Lowering the score):"
          :: (weakTop3 features).map weakLine)
    ++ summaryBlock features
    ++ [closingStr original_score]

/-- `generate_explanation` (lines 161-223): `"".join(explanation_parts)`. -/
def generate_explanation (features : List ScoredFeature)
    (original_score : ℚ) : String :=
  String.join (explanation_parts features original_score)

/-! ### The full pipeline (`explain_match`, lines 225-269) -/

/-- The dict returned by `explain_match` (lines 257-268). -/
structure MatchResult where
  final_score : ℚ
  feature_breakdown : List ScoredFeature
  explanation_text : String
  deriving DecidableEq

/-- `explain_match` (lines 225-269).  `image_embedding` abstracts
`model.encode_image` plus normalization on the preprocessed image
(lines 230-237); `encodeText` abstracts `model.encode_text` plus
normalization, used both for the full prompt (lines 240-242) and for the
feature phrases.  The authoritative score is the full-prompt cosine
similarity times 100 (lines 245-246), computed before decomposition. -/
def explain_match (image_embedding : List ℚ) (encodeText : String → List ℚ)
    (clientPresent : Bool) (llmResult : Option (List Feature))
    (prompt : String) : MatchResult :=
  let original_score := dotProd image_embedding (encodeText prompt) * 100
  let features := decompose_prompt clientPresent llmResult prompt
  let scored := compute_feature_similarities encodeText image_embedding features
  let explanation_text := generate_explanation scored original_score
  { final_score := pyRound2 original_score,
    feature_breakdown := scored.map fun f => { f with similarity := pyRound3 f.similarity },
    explanation_text := explanation_text }

/-- Claim C1: the final score is the rounded full-prompt cosine similarity
times 100, and it does not depend on the decomposition outcome. -/
theorem final_score_rounded_cosine_decomposition_independent
    (img : List ℚ) (enc : String → List ℚ) (prompt : String)
    (c₁ c₂ : Bool) (l₁ l₂ : Option (List Feature)) :
    (explain_match img enc c₁ l₁ prompt).final_score
        = pyRound2 (dotProd img (enc prompt) * 100)
      ∧ (explain_match img enc c₁ l₁ prompt).final_score
        = (explain_match img enc c₂ l₂ prompt).final_score :=
  ⟨rfl, rfl⟩

/-- Claim C6: with no credential configured, or on any LLM failure,
`decompose_prompt` returns the heuristic fallback result. -/
theorem decompose_prompt_degrades_to_fallback (prompt : String) :
    (∀ llm, decompose_prompt false llm prompt = fallback_decomposition prompt)
      ∧ decompose_prompt true none prompt = fallback_decomposition prompt :=
  ⟨fun _ => rfl, rfl⟩

/-- Claim C9: the sample prompt decomposes into exactly three features
tagged style, material, lighting. -/
theorem fallback_sample_prompt_three_features :
    fallback_decomposition "modern kitchen, sage green cabinets, pendant lighting"
      = [⟨"modern kitchen", "style"⟩, ⟨"sage green cabinets", "material"⟩,
         ⟨"pendant lighting", "lighting"⟩] := by
  decide

/-- Claim C4, counterexample: a prompt longer than 10 characters containing
delimiters whose fragments are all at most 5 characters long decomposes to
the empty list; there is no raw-fragment last resort. -/
theorem fallback_can_return_empty_on_nontrivial_prompt :
    10 < ("aa,bb,cc,dd" : String).length
      ∧ strContains "aa,bb,cc,dd" "," = true
      ∧ decompose_prompt false none "aa,bb,cc,dd" = []
      ∧ fallback_decomposition "aa,bb,cc,dd" = [] := by
  refine ⟨by decide, by decide, by decide, by decide⟩

/-- Claim C4, amended: `decompose_prompt` is total (never raises), and the
fallback result is empty exactly when every fragment of the delimiter split
has stripped length at most 5. -/
theorem fallback_empty_iff_all_fragments_short (prompt : String) :
    fallback_decomposition prompt = []
      ↔ ∀ c ∈ reSplit prompt, (pyStrip c).length ≤ 5 := by
  unfold fallback_decomposition
  rw [List.filterMap_eq_nil_iff]
  constructor
  · intro h c hc
    have := h c hc
    by_contra hlen
    push_neg at hlen
    simp only [if_pos hlen] at this
    exact Option.noConfusion this
  · intro h c hc
    simp only [if_neg (by exact Nat.not_lt.mpr (h c hc))]

theorem fallback_empty_iff_witness :
    fallback_decomposition "short, a" = [] :=
  (fallback_empty_iff_all_fragments_short "short, a").mpr (by decide)

/-- Claim C5, counterexample: duplicate fragments are not suppressed — the
prompt with two identical fragments yields two identical phrases. -/
theorem fallback_keeps_duplicate_phrases :
    fallback_decomposition "modern sofa, modern sofa"
        = [⟨"modern sofa", "style"⟩, ⟨"modern sofa", "style"⟩]
      ∧ ¬ ((fallback_decomposition "modern sofa, modern sofa").map
            Feature.feature).Nodup := by
  refine ⟨by decide, by decide⟩

/-- Claim C5, amended: every phrase is a stripped fragment of the delimiter
split with length greater than 5 (hence non-empty), but duplicates are kept. -/
theorem fallback_phrase_length_gate (prompt : String) (f : Feature)
    (hf : f ∈ fallback_decomposition prompt) :
    5 < f.feature.length ∧ f.feature ≠ ""
      ∧ ∃ c ∈ reSplit prompt, f.feature = pyStrip c := by
  unfold fallback_decomposition at hf
  obtain ⟨c, hc, hsome⟩ := List.mem_filterMap.mp hf
  simp only at hsome
  by_cases hlen : 5 < (pyStrip c).length
  · rw [if_pos hlen] at hsome
    obtain rfl := (Option.some_inj.mp hsome).symm
    refine ⟨hlen, ?_, c, hc, rfl⟩
    intro hemp
    change pyStrip c = "" at hemp
    rw [hemp] at hlen
    exact absurd hlen (by decide)
  · rw [if_neg hlen] at hsome
    exact Option.noConfusion hsome

theorem fallback_phrase_length_gate_witness :
    5 < (Feature.mk "modern kitchen" "style").feature.length
      ∧ (Feature.mk "modern kitchen" "style").feature ≠ ""
      ∧ ∃ c ∈ reSplit "modern kitchen",
          (Feature.mk "modern kitchen" "style").feature = pyStrip c :=
  fallback_phrase_length_gate "modern kitchen" ⟨"modern kitchen", "style"⟩ (by decide)

/-- Rank of a status tier: weak < partial < strong. -/
def tierRank (s : String) : ℕ :=
  if s = "strong" then 2 else if s = "partial" then 1 else 0

/-- Claim C2: the status produced by `compute_feature_similarities` is a
pure function of the similarity with inclusive lower-bound thresholds 0.45
and 0.25, and the tier rank is monotone in the similarity. -/
theorem status_thresholds_inclusive_and_monotone
    (enc : String → List ℚ) (img : List ℚ) (fs : List Feature) :
    (∀ g ∈ compute_feature_similarities enc img fs,
        ((0.45 : ℚ) ≤ g.similarity → g.status = "strong")
          ∧ ((0.25 : ℚ) ≤ g.similarity → g.similarity < 0.45 → g.status = "partial")
          ∧ (g.similarity < (0.25 : ℚ) → g.status = "weak"))
      ∧ ∀ g₁ ∈ compute_feature_similarities enc img fs,
          ∀ g₂ ∈ compute_feature_similarities enc img fs,
            g₁.similarity ≤ g₂.similarity →
              tierRank g₁.status ≤ tierRank g₂.status := by
  have key : ∀ g ∈ compute_feature_similarities enc img fs,
      g.status = if (0.45 : ℚ) ≤ g.similarity then "strong"
        else if (0.25 : ℚ) ≤ g.similarity then "partial" else "weak" := by
    intro g hg
    unfold compute_feature_similarities at hg
    split at hg
    · exact absurd hg (List.not_mem_nil g)
    · obtain ⟨f, _, rfl⟩ := List.mem_map.mp hg
      rfl
  constructor
  · intro g hg
    have hk := key g hg
    refine ⟨?_, ?_, ?_⟩
    · intro h45
      rw [hk, if_pos h45]
    · intro h25 h45
      rw [hk, if_neg (not_le.mpr h45), if_pos h25]
    · intro h25
      have h45 : ¬ (0.45 : ℚ) ≤ g.similarity :=
        not_le.mpr (lt_of_lt_of_le h25 (by norm_num))
      rw [hk, if_neg h45, if_neg (not_le.mpr h25)]
  · intro g₁ h₁ g₂ h₂ hle
    rw [key g₁ h₁, key g₂ h₂]
    split_ifs with h1 h2 h3 h4 h5 h6 h7 h8
    all_goals first
      | decide
      | (exfalso; linarith)

theorem status_thresholds_witness :
    (⟨"sunlit room", "general", (1 : ℚ), "strong"⟩ : ScoredFeature).status
      = "strong" := by
  have hc : compute_feature_similarities (fun _ => [(1 : ℚ)]) [1]
      [⟨"sunlit room", "general"⟩] = [⟨"sunlit room", "general", 1, "strong"⟩] := by
    unfold compute_feature_similarities dotProd
    norm_num
  exact ((status_thresholds_inclusive_and_monotone (fun _ => [(1 : ℚ)]) [1]
      [⟨"sunlit room", "general"⟩]).1 _ (hc ▸ List.mem_singleton.mpr rfl)).1
    (by norm_num)

/-- Claim C8: an empty feature list is a no-op for the scorer, and the
narrator renders only the header block, an all-zero summary and the closing
sentence, with no tier sections. -/
theorem zero_features_header_and_zero_summary :
    (∀ enc img, compute_feature_similarities enc img [] = [])
      ∧ ∀ s : ℚ, explanation_parts [] s
          = scoreHeaderBlock s
            ++ ["\n\nSummary: Out of 0 identified features, ",
                "0 are strong matches, ", "0 are partial matches, and ",
                "0 are weak/missing."]
            ++ [closingStr s] := by
  constructor
  · intro enc img
    rfl
  · intro s
    have hsum : summaryBlock []
        = ["\n\nSummary: Out of 0 identified features, ",
           "0 are strong matches, ", "0 are partial matches, and ",
           "0 are weak/missing."] := by decide
    simp [explanation_parts, strongOf, partialOf, weakOf, hsum]

/-- Claim C10: category assignment follows the fixed priority order
style > material > lighting > layout > fixtures (default general), with
substring keyword tests on the lowercased fragment. -/
theorem categorize_priority_order (chunk : String) :
    (anyKeyword styleWords chunk = true → categorizeChunk chunk = "style")
      ∧ (anyKeyword styleWords chunk = false →
          anyKeyword materialWords chunk = true →
          categorizeChunk chunk = "material")
      ∧ (anyKeyword styleWords chunk = false →
          anyKeyword materialWords chunk = false →
          anyKeyword lightingWords chunk = true →
          categorizeChunk chunk = "lighting")
      ∧ (anyKeyword styleWords chunk = false →
          anyKeyword materialWords chunk = false →
          anyKeyword lightingWords chunk = false →
          anyKeyword layoutWords chunk = true →
          categorizeChunk chunk = "layout")
      ∧ (anyKeyword styleWords chunk = false →
          anyKeyword materialWords chunk = false →
          anyKeyword lightingWords chunk = false →
          anyKeyword layoutWords chunk = false →
          anyKeyword fixtureWords chunk = true →
          categorizeChunk chunk = "fixtures")
      ∧ (anyKeyword styleWords chunk = false →
          anyKeyword materialWords chunk = false →
          anyKeyword lightingWords chunk = false →
          anyKeyword layoutWords chunk = false →
          anyKeyword fixtureWords chunk = false →
          categorizeChunk chunk = "general") := by
  refine ⟨?_, ?_, ?_, ?_, ?_, ?_⟩ <;> intros <;>
    simp_all [categorizeChunk]

theorem categorize_priority_witness :
    categorizeChunk "modern marble" = "style"
      ∧ categorizeChunk "recycled tiles" = "lighting" :=
  ⟨(categorize_priority_order "modern marble").1 (by decide),
   (categorize_priority_order "recycled tiles").2.2.1 (by decide) (by decide)
     (by decide)⟩

/-- Claim C3: the header states the score to two decimals with a label
given by inclusive lower-bound tiers (45 and 25), and the closing sentence
is keyed to the same tier. -/
theorem header_label_and_closing_same_tier
    (features : List ScoredFeature) (s : ℚ) :
    ((45 : ℚ) ≤ s →
        (explanation_parts features s).head?
            = some ("Overall Match Score: " ++ fmt2 s ++ "% (Strong Match)")
          ∧ (explanation_parts features s).getLast?
            = some " This explains the high overall match score.")
      ∧ ((25 : ℚ) ≤ s → s < 45 →
          (explanation_parts features s).head?
              = some ("Overall Match Score: " ++ fmt2 s ++ "% (Moderate Match)")
            ∧ (explanation_parts features s).getLast?
              = some " The mixed results explain the moderate overall score.")
      ∧ (s < (25 : ℚ) →
          (explanation_parts features s).head?
              = some ("Overall Match Score: " ++ fmt2 s ++ "% (Weak Match)")
            ∧ (explanation_parts features s).getLast?
              = some " The lack of strong matches explains the low overall score.") := by
  have hlast : (explanation_parts features s).getLast? = some (closingStr s) := by
    have hsplit : explanation_parts features s
        = (scoreHeaderBlock s
            ++ (if strongOf features = [] then []
                else "\n\n✓ Strong Matches (Contributing to the score):"
                  :: (strongTop3 features).map strongLine)
            ++ (if partialOf features = [] then []
                else "\n\n◐ Partial Matches (Somewhat contributing):"
                  :: (partialTop3 features).map partialLine)
            ++ (if weakOf features = [] then []
                else "\n\n✗ Weak/Missing Features (Lowering the score):"
                  :: (weakTop3 features).map weakLine)
            ++ summaryBlock features) ++ [closingStr s] := by
      simp [explanation_parts, List.append_assoc]
    rw [hsplit, List.getLast?_concat]
  have hhead : (explanation_parts features s).head?
      = (scoreHeaderBlock s).head? := by
    unfold explanation_parts
    cases hsb : scoreHeaderBlock s with
    | nil =>
      exfalso
      unfold scoreHeaderBlock at hsb
      split_ifs at hsb
    | cons a t => simp
  refine ⟨fun h45 => ?_, fun h25 h45 => ?_, fun h25 => ?_⟩
  · constructor
    · rw [hhead]
      unfold scoreHeaderBlock
      rw [if_pos h45]
      rfl
    · rw [hlast]
      unfold closingStr
      rw [if_pos h45]
  · constructor
    · rw [hhead]
      unfold scoreHeaderBlock
      rw [if_neg (not_le.mpr h45), if_pos h25]
      rfl
    · rw [hlast]
      unfold closingStr
      rw [if_neg (not_le.mpr h45), if_pos h25]
  · have h45 : ¬ (45 : ℚ) ≤ s := not_le.mpr (lt_trans h25 (by norm_num))
    constructor
    · rw [hhead]
      unfold scoreHeaderBlock
      rw [if_neg h45, if_neg (not_le.mpr h25)]
      rfl
    · rw [hlast]
      unfold closingStr
      rw [if_neg h45, if_neg (not_le.mpr h25)]

theorem header_boundary_witness :
    (explanation_parts [] 25).head?
        = some ("Overall Match Score: " ++ fmt2 25 ++ "% (Moderate Match)")
      ∧ (explanation_parts [] (24.99 : ℚ)).head?
        = some ("Overall Match Score: " ++ fmt2 (24.99 : ℚ) ++ "% (Weak Match)")
      ∧ fmt2 25 = "25.00" ∧ fmt2 (24.99 : ℚ) = "24.99" := by
  refine ⟨((header_label_and_closing_same_tier [] 25).2.1 (by norm_num)
      (by norm_num)).1,
    ((header_label_and_closing_same_tier [] (24.99 : ℚ)).2.2 (by norm_num)).1,
    ?_, ?_⟩
  · simp only [fmt2]
    norm_num
    decide
  · simp only [fmt2]
    norm_num
    decide

/-- Claim C7: each tier section shows at most the top three features,
strong and partial sorted by similarity descending, weak sorted ascending
(worst first); shown items come from the corresponding tier, and each
non-empty tier's section (title plus rendered items) appears in the
narration. -/
theorem tier_sections_top3_and_sorted
    (features : List ScoredFeature) (s : ℚ) :
    ((strongTop3 features).length ≤ 3
        ∧ (partialTop3 features).length ≤ 3
        ∧ (weakTop3 features).length ≤ 3)
      ∧ (List.Sorted simDescRel (strongTop3 features)
        ∧ List.Sorted simDescRel (partialTop3 features)
        ∧ List.Sorted simAscRel (weakTop3 features))
      ∧ ((∀ f ∈ strongTop3 features, f ∈ features ∧ f.status = "strong")
        ∧ (∀ f ∈ partialTop3 features, f ∈ features ∧ f.status = "partial")
        ∧ (∀ f ∈ weakTop3 features, f ∈ features ∧ f.status = "weak"))
      ∧ ((strongOf features ≠ [] →
            List.IsInfix
              ("\n\n✓ Strong Matches (Contributing to the score):"
                :: (strongTop3 features).map strongLine)
              (explanation_parts features s))
        ∧ (partialOf features ≠ [] →
            List.IsInfix
              ("\n\n◐ Partial Matches (Somewhat contributing):"
                :: (partialTop3 features).map partialLine)
              (explanation_parts features s))
        ∧ (weakOf features ≠ [] →
            List.IsInfix
              ("\n\n✗ Weak/Missing Features (Lowering the score):"
                :: (weakTop3 features).map weakLine)
              (explanation_parts features s))) := by
  refine ⟨⟨?_, ?_, ?_⟩, ⟨?_, ?_, ?_⟩, ⟨?_, ?_, ?_⟩, ⟨?_, ?_, ?_⟩⟩
  · simp [strongTop3, List.length_take]
  · simp [partialTop3, List.length_take]
  · simp [weakTop3, List.length_take]
  · exact List.Pairwise.sublist (List.take_sublist 3 _)
      (List.sorted_insertionSort _ _)
  · exact List.Pairwise.sublist (List.take_sublist 3 _)
      (List.sorted_insertionSort _ _)
  · exact List.Pairwise.sublist (List.take_sublist 3 _)
      (List.sorted_insertionSort _ _)
  · intro f hf
    have hmem : f ∈ strongOf features :=
      (List.mem_insertionSort _).mp (List.mem_of_mem_take hf)
    have := List.mem_filter.mp hmem
    exact ⟨this.1, by simpa using this.2⟩
  · intro f hf
    have hmem : f ∈ partialOf features :=
      (List.mem_insertionSort _).mp (List.mem_of_mem_take hf)
    have := List.mem_filter.mp hmem
    exact ⟨this.1, by simpa using this.2⟩
  · intro f hf
    have hmem : f ∈ weakOf features :=
      (List.mem_insertionSort _).mp (List.mem_of_mem_take hf)
    have := List.mem_filter.mp hmem
    exact ⟨this.1, by simpa using this.2⟩
  · intro h
    refine ⟨scoreHeaderBlock s, ?_, ?_⟩
    · exact (if partialOf features = [] then []
          else "\n\n◐ Partial Matches (Somewhat contributing):"
            :: (partialTop3 features).map partialLine)
        ++ (if weakOf features = [] then []
            else "\n\n✗ Weak/Missing Features (Lowering the score):"
              :: (weakTop3 features).map weakLine)
        ++ summaryBlock features ++ [closingStr s]
    · simp [explanation_parts, if_neg h, List.append_assoc]
  · intro h
    refine ⟨scoreHeaderBlock s
        ++ (if strongOf features = [] then []
            else "\n\n✓ Strong Matches (Contributing to the score):"
              :: (strongTop3 features).map strongLine), ?_, ?_⟩
    · exact (if weakOf features = [] then []
          else "\n\n✗ Weak/Missing Features (Lowering the score):"
            :: (weakTop3 features).map weakLine)
        ++ summaryBlock features ++ [closingStr s]
    · simp [explanation_parts, if_neg h, List.append_assoc]
  · intro h
    refine ⟨scoreHeaderBlock s
        ++ (if strongOf features = [] then []
            else "\n\n✓ Strong Matches (Contributing to the score):"
              :: (strongTop3 features).map strongLine)
        ++ (if partialOf features = [] then []
            else "\n\n◐ Partial Matches (Somewhat contributing):"
              :: (partialTop3 features).map partialLine), ?_, ?_⟩
    · exact summaryBlock features ++ [closingStr s]
    · simp [explanation_parts, if_neg h, List.append_assoc]

theorem tier_sections_witness :
    ((⟨"granite top", "material", (1 : ℚ), "strong"⟩ : ScoredFeature)
        ∈ [(⟨"granite top", "material", (1 : ℚ), "strong"⟩ : ScoredFeature)]
      ∧ (⟨"granite top", "material", (1 : ℚ), "strong"⟩ : ScoredFeature).status
        = "strong")
      ∧ List.IsInfix
          ("\n\n✓ Strong Matches (Contributing to the score):"
            :: (strongTop3
                [⟨"granite top", "material", (1 : ℚ), "strong"⟩]).map strongLine)
          (explanation_parts [⟨"granite top", "material", (1 : ℚ), "strong"⟩] 50) := by
  have h := tier_sections_top3_and_sorted
    [⟨"granite top", "material", (1 : ℚ), "strong"⟩] 50
  refine ⟨h.2.2.1.1 _ ?_, h.2.2.2.1 ?_⟩
  · show _ ∈ strongTop3 _
    decide
  · decide

end ImageMatcher
